import Mathlib

/-!
Verification of `src/server-core/src/win32/audio_manager_impl.cpp` of the
audio-share server core (Windows WASAPI loopback capture).

Shallow embedding notes:
- `HRESULT` is `Int`; `FAILED hr` is the sign test `hr < 0`, as in the
  Windows macro.
- `exit_on_failed` (line 333) logs a message plus the OS error text derived
  from the HRESULT and calls `exit(-1)`.  We model a process exit as the
  `Except.error` channel carrying a `ProcExit` record (message and failing
  HRESULT).  An `Except.error` result therefore means the process
  terminated; it is never a value the caller receives.
- Every OS call made by the code is an input supplied through an
  environment record: its HRESULT and its out-parameters.  The control flow
  of the Lean functions mirrors the C++ statement by statement.
- The capture loop (lines 151-193) is a do-while loop driven by a periodic
  timer.  Each loop iteration (tick) is driven by a `Tick` record holding
  the results of the OS calls of that iteration and the value of the
  `_stoppped` flag the iteration observes at the loop condition.  A run is
  the loop executed over a finite list of such ticks; it produces a trace
  of observable events and an outcome.
-/

namespace AudioShare

/-! ## HRESULT and Windows constants -/

abbrev HRESULT := Int

/-- The Windows `FAILED` macro: an HRESULT is a failure iff its sign bit is
set, i.e. it is negative as a signed 32-bit value. -/
def FAILED (hr : HRESULT) : Bool := decide (hr < 0)

def S_OK : HRESULT := 0

/-- The constant `E_FAIL`, `0x80004005` as a signed 32-bit value. -/
def E_FAIL : HRESULT := -2147467259

/-- The constant `HRESULT_FROM_WIN32(ERROR_NOT_FOUND)`, `0x80070490` as a signed 32-bit
value.  `get_default_endpoint` (line 269) compares against this value. -/
def HR_ERROR_NOT_FOUND : HRESULT := -2147023728

def WAVE_FORMAT_PCM : Nat := 1
def WAVE_FORMAT_IEEE_FLOAT : Nat := 3
def WAVE_FORMAT_EXTENSIBLE : Nat := 65534

/-- The protobuf `AudioFormat.format_tag` default value: the field is never
set when the tag is unrecognized, so it keeps the proto3 default `0`, which
is the unknown tag. -/
def FORMAT_TAG_UNKNOWN : Nat := 0

def AUDCLNT_SHAREMODE_SHARED : Nat := 0
def AUDCLNT_STREAMFLAGS_LOOPBACK : Nat := 131072
def AUDCLNT_STREAMFLAGS_EVENTCALLBACK : Nat := 262144

/-! ## Formats -/

/-- The `SubFormat` GUID of a `WAVEFORMATEXTENSIBLE`.  Only two GUIDs are
distinguished by the code (`KSDATAFORMAT_SUBTYPE_PCM` and
`KSDATAFORMAT_SUBTYPE_IEEE_FLOAT`); `other n` stands for any distinct
GUID. -/
inductive SubFormat where
  | pcm
  | ieeeFloat
  | other (n : Nat)
deriving DecidableEq, Repr

/-- The native `WAVEFORMATEX` descriptor returned by `GetMixFormat`.  The
`subFormat` field is the embedded `WAVEFORMATEXTENSIBLE::SubFormat`, read
by the code only when `wFormatTag = WAVE_FORMAT_EXTENSIBLE`. -/
structure WAVEFORMATEX where
  wFormatTag : Nat
  nChannels : Nat
  nSamplesPerSec : Nat
  wBitsPerSample : Nat
  nBlockAlign : Nat
  subFormat : SubFormat
deriving DecidableEq, Repr

/-- The protobuf `AudioFormat` message filled by `set_format`. -/
structure AudioFormat where
  format_tag : Nat
  channels : Nat
  sample_rate : Nat
  bits_per_sample : Nat
deriving DecidableEq, Repr

/-- A freshly constructed `AudioFormat`: all proto3 scalar fields default
to `0`; in particular `format_tag = FORMAT_TAG_UNKNOWN`. -/
def defaultAudioFormat : AudioFormat :=
  { format_tag := FORMAT_TAG_UNKNOWN, channels := 0, sample_rate := 0, bits_per_sample := 0 }

/-- The function `set_format` (lines 281-299).  Sets the protobuf tag when the native
tag is plain PCM or plain IEEE float; when the native tag is extensible,
sets it from the recognized sub-format GUIDs; otherwise leaves the tag
field untouched.  Channels, sample rate and bits per sample are always
copied.  The function is total: no branch can fail. -/
def set_format (f : AudioFormat) (format : WAVEFORMATEX) : AudioFormat :=
  let f :=
    if format.wFormatTag = WAVE_FORMAT_PCM ∨ format.wFormatTag = WAVE_FORMAT_IEEE_FLOAT then
      { f with format_tag := format.wFormatTag }
    else if format.wFormatTag = WAVE_FORMAT_EXTENSIBLE then
      if format.subFormat = SubFormat.pcm then
        { f with format_tag := WAVE_FORMAT_PCM }
      else if format.subFormat = SubFormat.ieeeFloat then
        { f with format_tag := WAVE_FORMAT_IEEE_FLOAT }
      else
        f
    else
      f
  { f with
    channels := format.nChannels
    sample_rate := format.nSamplesPerSec
    bits_per_sample := format.wBitsPerSample }

/-! ## Process exit (`exit_on_failed`) -/

/-- The observable content of a call to `exit_on_failed` that fired: the
message passed at the call site and the failing HRESULT (from which the
logged OS error text `wstr_win_err(HRESULT_CODE(hr))` is derived).  The
process then terminates with `exit(-1)`. -/
structure ProcExit where
  message : String
  hr : HRESULT
deriving DecidableEq, Repr

/-- The function `exit_on_failed` (lines 333-339): on a failed HRESULT, log and
terminate the process (modelled as the `Except.error` channel); otherwise
do nothing.  The `message` parameter defaults to `""` in the source and
many call sites in `get_endpoint_list` pass no message. -/
def exit_on_failed (hr : HRESULT) (message : String) : Except ProcExit Unit :=
  if FAILED hr then .error ⟨message, hr⟩ else .ok ()

/-- Whether an `Except ProcExit` computation completed without terminating
the process. -/
def exceptIsOk {α : Type} : Except ProcExit α → Bool
  | .ok _ => true
  | .error _ => false

/-! ## `get_default_endpoint` (lines 259-279) -/

/-- Results of the OS calls made by one invocation of
`get_default_endpoint`: the enumerator creation, the
`GetDefaultAudioEndpoint(eRender, eConsole, ...)` query, and the
`GetId` query with its returned id.  This record is the live OS state the
call observes; the function holds no state of its own across calls. -/
structure DefaultEnv where
  coCreateHr : HRESULT
  getDefaultHr : HRESULT
  deviceIdHr : HRESULT
  deviceId : String
deriving DecidableEq, Repr

/-- The function `audio_manager::get_default_endpoint` (lines 259-279).  Returns the
empty string (the code returns `{}`) when `GetDefaultAudioEndpoint`
reports `HRESULT_FROM_WIN32(ERROR_NOT_FOUND)`; any other failure fires
`exit_on_failed` with the default empty message. -/
def get_default_endpoint (env : DefaultEnv) : Except ProcExit String :=
  if FAILED env.coCreateHr then .error ⟨"", env.coCreateHr⟩
  else if env.getDefaultHr = HR_ERROR_NOT_FOUND then .ok ""
  else if FAILED env.getDefaultHr then .error ⟨"", env.getDefaultHr⟩
  else if FAILED env.deviceIdHr then .error ⟨"", env.deviceIdHr⟩
  else .ok env.deviceId

/-- The id `get_default_endpoint` returns on its non-exit paths. -/
def default_endpoint_value (env : DefaultEnv) : String :=
  if env.getDefaultHr = HR_ERROR_NOT_FOUND then "" else env.deviceId

/-- The calls of one `get_default_endpoint` invocation all succeed or hit
the benign not-found branch (no process exit). -/
def defOk (env : DefaultEnv) : Bool :=
  !FAILED env.coCreateHr &&
    (decide (env.getDefaultHr = HR_ERROR_NOT_FOUND) ||
      (!FAILED env.getDefaultHr && !FAILED env.deviceIdHr))

/-! ## `get_endpoint_list` (lines 195-257) -/

/-- Results of the per-device OS calls of the inner loop of
`get_endpoint_list` (lines 222-253): `Item`, `GetId`, `OpenPropertyStore`,
`GetValue(PKEY_Device_FriendlyName)`, and the id and friendly name they
return. -/
structure DeviceEnv where
  itemHr : HRESULT
  getIdHr : HRESULT
  openPropsHr : HRESULT
  getValueHr : HRESULT
  id : String
  name : String
deriving DecidableEq, Repr

/-- Results of the per-direction OS calls of `get_endpoint_list` (lines
207-217): enumerator creation, `EnumAudioEndpoints`, `GetCount`, and the
enumerated device collection. -/
structure EnumPassEnv where
  coCreateHr : HRESULT
  enumEndpointsHr : HRESULT
  getCountHr : HRESULT
  devices : List DeviceEnv
deriving DecidableEq, Repr

/-- The OS environment of one `get_endpoint_list` call.  The function
calls `get_default_endpoint` three times (line 202 and line 220 in each of
the two direction passes); each call observes the then-current OS state,
so each gets its own `DefaultEnv`. -/
structure ListEnv where
  default0 : DefaultEnv
  render : EnumPassEnv
  defaultRender : DefaultEnv
  capture : EnumPassEnv
  defaultCapture : DefaultEnv
deriving DecidableEq, Repr

/-- All per-device calls of one device succeed. -/
def devOk (d : DeviceEnv) : Bool :=
  !FAILED d.itemHr && !FAILED d.getIdHr && !FAILED d.openPropsHr && !FAILED d.getValueHr

/-- All direction-pass-level calls succeed. -/
def passOk (p : EnumPassEnv) : Bool :=
  !FAILED p.coCreateHr && !FAILED p.enumEndpointsHr && !FAILED p.getCountHr &&
    p.devices.all devOk

/-- No call anywhere inside `get_endpoint_list` fires `exit_on_failed`
(the benign not-found branch of the default queries is allowed). -/
def allEnumOk (env : ListEnv) : Bool :=
  defOk env.default0 && passOk env.render && defOk env.defaultRender &&
    passOk env.capture && defOk env.defaultCapture

/-- The inner device loop of `get_endpoint_list` (lines 222-253) for one
direction: visits devices in order, appends `(id, label ++ " " ++ name)`
for each, and overwrites `default_index` with the device index local to
this collection whenever the device id equals `default_id`. -/
def scanDevices (label : String) (default_id : String) :
    List DeviceEnv → Nat → Int → Except ProcExit (List (String × String) × Int)
  | [], _, default_index => .ok ([], default_index)
  | d :: rest, i, default_index =>
    if FAILED d.itemHr then .error ⟨"", d.itemHr⟩
    else if FAILED d.getIdHr then .error ⟨"", d.getIdHr⟩
    else if FAILED d.openPropsHr then .error ⟨"", d.openPropsHr⟩
    else if FAILED d.getValueHr then .error ⟨"", d.getValueHr⟩
    else
      match scanDevices label default_id rest (i + 1)
          (if d.id = default_id then (i : Int) else default_index) with
      | .error e => .error e
      | .ok (entries, dj) => .ok ((d.id, label ++ " " ++ d.name) :: entries, dj)

/-- One direction pass of `get_endpoint_list` (lines 205-254): the
pass-level OS calls, then the reset `default_index = -1` (line 219) and the
fresh `default_id = get_default_endpoint()` (line 220) — the default id is
always the playback default, whatever the direction being enumerated —
then the device loop. -/
def run_pass (isRender : Bool) (p : EnumPassEnv) (defEnv : DefaultEnv) :
    Except ProcExit (List (String × String) × Int) :=
  if FAILED p.coCreateHr then .error ⟨"", p.coCreateHr⟩
  else if FAILED p.enumEndpointsHr then .error ⟨"", p.enumEndpointsHr⟩
  else if FAILED p.getCountHr then .error ⟨"", p.getCountHr⟩
  else
    match get_default_endpoint defEnv with
    | .error e => .error e
    | .ok default_id =>
      scanDevices (if isRender then "[Playback]" else "[Recording]") default_id
        p.devices 0 (-1)

/-- The function `audio_manager::get_endpoint_list` (lines 195-257).  Runs the render
pass then the capture pass; because `default_index` is reset to `-1` at
the start of each pass (line 219), the returned index is the one computed
by the last (capture) pass. -/
def get_endpoint_list (env : ListEnv) :
    Except ProcExit (List (String × String) × Int) :=
  match get_default_endpoint env.default0 with
  | .error e => .error e
  | .ok _ =>
    match run_pass true env.render env.defaultRender with
    | .error e => .error e
    | .ok (renderEntries, _) =>
      match run_pass false env.capture env.defaultCapture with
      | .error e => .error e
      | .ok (captureEntries, captureIndex) =>
        .ok (renderEntries ++ captureEntries, captureIndex)

/-! ## The capture loop of `do_loopback_recording` (lines 151-193) -/

/-- The inputs one iteration (tick) of the do-while capture loop observes:
the timer wait outcome (`timerEc = true` models `timer.wait(ec)` setting a
nonzero `std::error_code`), the `GetNextPacketSize` call, the `GetBuffer`
call with the frame count it reports, the `ReleaseBuffer` call, and the
value of the `_stoppped` flag the iteration reads at the loop condition
`while (!_stoppped)`.  The flag has a single external writer; `stoppped`
is the value visible to this iteration. -/
structure Tick where
  timerEc : Bool
  getNextPacketSizeHr : HRESULT
  nextPacketSize : Nat
  getBufferHr : HRESULT
  numFramesAvailable : Nat
  releaseBufferHr : HRESULT
  stoppped : Bool
deriving DecidableEq, Repr

/-- Observable events of the capture loop, in program order:
`timerWait` is the periodic `timer.wait`; `pollPacket n` is the
`GetNextPacketSize` call reporting `n` pending frames; `acquire` is a
successful `GetBuffer`; `deliver len` is
`network_manager->broadcast_audio_data(pData, len, blockAlign)` with
`len = numFramesAvailable * nBlockAlign` bytes; `release` is the
`ReleaseBuffer` call. -/
inductive Ev where
  | timerWait
  | pollPacket (n : Nat)
  | acquire
  | deliver (len : Nat)
  | release
deriving DecidableEq, Repr

/-- How a run of the loop ended.  `stopped` means the loop was left
through its exit edges (`break` on a timer error, or the loop condition
seeing `_stoppped`), after which line 192 runs `pAudioClient->Stop()`:
the normal stop path.  `exited e` means `exit_on_failed` fired inside the
loop and the process terminated (no `Stop()` call).  `outOfTicks` means
the supplied tick list ended with the loop still running. -/
inductive LoopOutcome where
  | stopped
  | exited (e : ProcExit)
  | outOfTicks
deriving DecidableEq, Repr

/-- The do-while capture loop (lines 153-189), driven by a list of tick
environments.  Statement order per iteration: timer wait (`break` on
error), `GetNextPacketSize` (`exit_on_failed` on failure), `continue` on a
zero packet size — which, in a do-while, jumps to the loop condition and
therefore still checks `_stoppped` — otherwise `GetBuffer`
(`exit_on_failed` on failure), `broadcast_audio_data` with
`numFramesAvailable * nBlockAlign` bytes, `ReleaseBuffer`
(`exit_on_failed` on failure), then the loop condition `while
(!_stoppped)`. -/
def runTicks (ba : Nat) : List Tick → List Ev × LoopOutcome
  | [] => ([], .outOfTicks)
  | t :: rest =>
    if t.timerEc then ([Ev.timerWait], .stopped)
    else if FAILED t.getNextPacketSizeHr then
      ([Ev.timerWait, Ev.pollPacket t.nextPacketSize],
        .exited ⟨"pCaptureClient->GetNextPacketSize", t.getNextPacketSizeHr⟩)
    else if t.nextPacketSize = 0 then
      if t.stoppped then ([Ev.timerWait, Ev.pollPacket t.nextPacketSize], .stopped)
      else
        let r := runTicks ba rest
        (Ev.timerWait :: Ev.pollPacket t.nextPacketSize :: r.1, r.2)
    else if FAILED t.getBufferHr then
      ([Ev.timerWait, Ev.pollPacket t.nextPacketSize],
        .exited ⟨"pCaptureClient->GetBuffer", t.getBufferHr⟩)
    else
      let evs := [Ev.timerWait, Ev.pollPacket t.nextPacketSize, Ev.acquire,
        Ev.deliver (t.numFramesAvailable * ba), Ev.release]
      if FAILED t.releaseBufferHr then
        (evs, .exited ⟨"pCaptureClient->ReleaseBuffer", t.releaseBufferHr⟩)
      else if t.stoppped then (evs, .stopped)
      else
        let r := runTicks ba rest
        (evs ++ r.1, r.2)

/-- The events a single successfully completed tick contributes. -/
def tickTrace (ba : Nat) (t : Tick) : List Ev :=
  if t.nextPacketSize = 0 then [Ev.timerWait, Ev.pollPacket t.nextPacketSize]
  else [Ev.timerWait, Ev.pollPacket t.nextPacketSize, Ev.acquire,
    Ev.deliver (t.numFramesAvailable * ba), Ev.release]

/-- The OS calls of one tick all succeed. -/
def okTick (t : Tick) : Bool :=
  !FAILED t.getNextPacketSizeHr && !FAILED t.getBufferHr && !FAILED t.releaseBufferHr

/-- A tick the loop runs through completely and then keeps looping: timer
ok, OS calls ok, stop flag observed clear. -/
def tickRuns (t : Tick) : Bool :=
  !t.timerEc && okTick t && !t.stoppped

/-- Number of successful `GetBuffer` acquisitions in a trace. -/
def countAcquires : List Ev → Nat
  | [] => 0
  | Ev.acquire :: rest => countAcquires rest + 1
  | _ :: rest => countAcquires rest

/-- Number of `ReleaseBuffer` calls in a trace. -/
def countReleases : List Ev → Nat
  | [] => 0
  | Ev.release :: rest => countReleases rest + 1
  | _ :: rest => countReleases rest

/-- The byte lengths handed to the sink, in order. -/
def deliverLengths : List Ev → List Nat
  | [] => []
  | Ev.deliver n :: rest => n :: deliverLengths rest
  | _ :: rest => deliverLengths rest

/-! ## The initialization phase of `do_loopback_recording` (lines 58-139) -/

/-- Results of the OS calls of the initialization phase, in call order.
`audioClientInit flags fmt` is the HRESULT of
`pAudioClient->Initialize(AUDCLNT_SHAREMODE_SHARED, flags,
hnsRequestedDuration, 0, fmt, nullptr)`: the code calls it first with the
loopback flag and, only if that fails, once more with the event-callback
flag and the same format. -/
structure CaptureInitEnv where
  coCreateHr : HRESULT
  getDeviceHr : HRESULT
  openPropsHr : HRESULT
  getNameHr : HRESULT
  activateHr : HRESULT
  getMixFormatHr : HRESULT
  mixFormat : WAVEFORMATEX
  getDevicePeriodHr : HRESULT
  audioClientInit : Nat → WAVEFORMATEX → HRESULT
  getBufferSizeHr : HRESULT
  getServiceHr : HRESULT
  startHr : HRESULT

/-- Lines 100-105: before `set_format`, the code rewrites the native tag
in place to `WAVE_FORMAT_IEEE_FLOAT` when the mix format is extensible
with the IEEE-float sub-format; both `Initialize` calls then receive this
adjusted format. -/
def adjustedMixFormat (env : CaptureInitEnv) : WAVEFORMATEX :=
  if env.mixFormat.wFormatTag = WAVE_FORMAT_EXTENSIBLE ∧
      env.mixFormat.subFormat = SubFormat.ieeeFloat then
    { env.mixFormat with wFormatTag := WAVE_FORMAT_IEEE_FLOAT }
  else env.mixFormat

/-- One `Initialize` call as attempted: share mode, stream flags, and the
format passed. -/
structure InitAttempt where
  shareMode : Nat
  flags : Nat
  format : WAVEFORMATEX
deriving DecidableEq, Repr

/-- The calls after stream initialization and before the loop (lines
129-139): `GetBufferSize`, `GetService`, `Start`. -/
def postInit (env : CaptureInitEnv) (attempts : List InitAttempt) (negotiated : AudioFormat) :
    List InitAttempt × Except ProcExit AudioFormat :=
  if FAILED env.getBufferSizeHr then
    (attempts, .error ⟨"Failed to get buffer size", env.getBufferSizeHr⟩)
  else if FAILED env.getServiceHr then
    (attempts, .error ⟨"Failed to get IAudioCaptureClient", env.getServiceHr⟩)
  else if FAILED env.startHr then
    (attempts, .error ⟨"Failed to start audio client", env.startHr⟩)
  else (attempts, .ok negotiated)

/-- The initialization phase of `audio_manager::do_loopback_recording`
(lines 58-139), up to entering the capture loop.  Returns the list of
`Initialize` attempts made and either the negotiated `AudioFormat` (the
session reached Running: the stream is started and the loop begins) or
the `ProcExit` of the `exit_on_failed` that terminated the process. -/
def do_loopback_recording_init (env : CaptureInitEnv) :
    List InitAttempt × Except ProcExit AudioFormat :=
  if FAILED env.coCreateHr then
    ([], .error ⟨"Failed to create IMMDeviceEnumerator", env.coCreateHr⟩)
  else if FAILED env.getDeviceHr then
    ([], .error ⟨"Failed to get audio endpoint device", env.getDeviceHr⟩)
  else if FAILED env.openPropsHr then
    ([], .error ⟨"Failed to open property store", env.openPropsHr⟩)
  else if FAILED env.getNameHr then
    ([], .error ⟨"Failed to get device friendly name", env.getNameHr⟩)
  else if FAILED env.activateHr then
    ([], .error ⟨"Failed to activate IAudioClient", env.activateHr⟩)
  else if FAILED env.getMixFormatHr then
    ([], .error ⟨"Failed to get mix format", env.getMixFormatHr⟩)
  else
    let fmt := adjustedMixFormat env
    let negotiated := set_format defaultAudioFormat fmt
    if FAILED env.getDevicePeriodHr then
      ([], .error ⟨"Failed to get device period", env.getDevicePeriodHr⟩)
    else
      let hr1 := env.audioClientInit AUDCLNT_STREAMFLAGS_LOOPBACK fmt
      if FAILED hr1 then
        let hr2 := env.audioClientInit AUDCLNT_STREAMFLAGS_EVENTCALLBACK fmt
        let attempts :=
          [⟨AUDCLNT_SHAREMODE_SHARED, AUDCLNT_STREAMFLAGS_LOOPBACK, fmt⟩,
           ⟨AUDCLNT_SHAREMODE_SHARED, AUDCLNT_STREAMFLAGS_EVENTCALLBACK, fmt⟩]
        if FAILED hr2 then
          (attempts, .error ⟨"Failed to initialize audio client for loopback", hr2⟩)
        else postInit env attempts negotiated
      else
        postInit env [⟨AUDCLNT_SHAREMODE_SHARED, AUDCLNT_STREAMFLAGS_LOOPBACK, fmt⟩] negotiated

/-- Every call of the initialization phase other than the two `Initialize`
attempts succeeds. -/
def setupOk (env : CaptureInitEnv) : Bool :=
  !FAILED env.coCreateHr && !FAILED env.getDeviceHr && !FAILED env.openPropsHr &&
    !FAILED env.getNameHr && !FAILED env.activateHr && !FAILED env.getMixFormatHr &&
    !FAILED env.getDevicePeriodHr && !FAILED env.getBufferSizeHr &&
    !FAILED env.getServiceHr && !FAILED env.startHr

/-- The whole of `audio_manager::do_loopback_recording`: the
initialization phase followed, when it reaches Running, by the capture
loop over the given ticks with the block alignment of the adjusted mix
format. -/
def do_loopback_recording (env : CaptureInitEnv) (ticks : List Tick) :
    List InitAttempt × Except ProcExit (AudioFormat × List Ev × LoopOutcome) :=
  match do_loopback_recording_init env with
  | (attempts, .error e) => (attempts, .error e)
  | (attempts, .ok negotiated) =>
    let r := runTicks (adjustedMixFormat env).nBlockAlign ticks
    (attempts, .ok (negotiated, r.1, r.2))

/-- The HRESULT of the primary `Initialize` call (line 120): shared mode
with `AUDCLNT_STREAMFLAGS_LOOPBACK` and the adjusted mix format. -/
def loopbackHr (env : CaptureInitEnv) : HRESULT :=
  env.audioClientInit AUDCLNT_STREAMFLAGS_LOOPBACK (adjustedMixFormat env)

/-- The HRESULT of the fallback `Initialize` call (line 125): shared mode
with `AUDCLNT_STREAMFLAGS_EVENTCALLBACK` and the same format. -/
def fallbackHr (env : CaptureInitEnv) : HRESULT :=
  env.audioClientInit AUDCLNT_STREAMFLAGS_EVENTCALLBACK (adjustedMixFormat env)

/-- The primary initialization attempt as recorded. -/
def primaryAttempt (env : CaptureInitEnv) : InitAttempt :=
  ⟨AUDCLNT_SHAREMODE_SHARED, AUDCLNT_STREAMFLAGS_LOOPBACK, adjustedMixFormat env⟩

/-- The fallback initialization attempt as recorded: alternate flag, same
share mode and same format as the primary attempt. -/
def fallbackAttempt (env : CaptureInitEnv) : InitAttempt :=
  ⟨AUDCLNT_SHAREMODE_SHARED, AUDCLNT_STREAMFLAGS_EVENTCALLBACK, adjustedMixFormat env⟩

/-- The `AudioFormat` negotiated by `set_format` at line 107. -/
def negotiatedFormat (env : CaptureInitEnv) : AudioFormat :=
  set_format defaultAudioFormat (adjustedMixFormat env)

/-! ## Witness environments -/

/-- A tick whose OS calls succeed, with pending packet size and reported
frame count `n`, observed with the stop flag clear. -/
def simTick (n : Nat) : Tick :=
  { timerEc := false, getNextPacketSizeHr := S_OK, nextPacketSize := n,
    getBufferHr := S_OK, numFramesAvailable := n, releaseBufferHr := S_OK,
    stoppped := false }

/-- The simulated packet-size sequence `[0, 480, 0, 960]` of the spec. -/
def simTicks : List Tick := [simTick 0, simTick 480, simTick 0, simTick 960]

/-- One tick whose stop flag is already set when the tick begins: all OS
calls succeed and a 480-frame packet is pending. -/
def cexStopTick : Tick :=
  { timerEc := false, getNextPacketSizeHr := S_OK, nextPacketSize := 480,
    getBufferHr := S_OK, numFramesAvailable := 480, releaseBufferHr := S_OK,
    stoppped := true }

/-- Ticks preceding the stop request: the loop runs through them. -/
def preC6 : List Tick := [simTick 128]

/-- The tick during which the stop request becomes visible: 480 frames
are still pending. -/
def tC6 : Tick :=
  { timerEc := false, getNextPacketSizeHr := S_OK, nextPacketSize := 480,
    getBufferHr := S_OK, numFramesAvailable := 480, releaseBufferHr := S_OK,
    stoppped := true }

/-- Ticks that would follow had the loop kept running. -/
def postC6 : List Tick := [simTick 32]

/-- An initialization environment whose loopback `Initialize` call is
rejected while the event-callback fallback succeeds. -/
def envC1 : CaptureInitEnv :=
  { coCreateHr := S_OK, getDeviceHr := S_OK, openPropsHr := S_OK,
    getNameHr := S_OK, activateHr := S_OK, getMixFormatHr := S_OK,
    mixFormat := { wFormatTag := WAVE_FORMAT_IEEE_FLOAT, nChannels := 2,
                   nSamplesPerSec := 48000, wBitsPerSample := 32, nBlockAlign := 8,
                   subFormat := SubFormat.other 0 },
    getDevicePeriodHr := S_OK,
    audioClientInit := fun flags _ =>
      if flags = AUDCLNT_STREAMFLAGS_LOOPBACK then E_FAIL else S_OK,
    getBufferSizeHr := S_OK, getServiceHr := S_OK, startHr := S_OK }

/-- An initialization environment in which both `Initialize` attempts —
loopback and the event-callback fallback — are rejected while every other
call succeeds. -/
def envC1both : CaptureInitEnv :=
  { coCreateHr := S_OK, getDeviceHr := S_OK, openPropsHr := S_OK,
    getNameHr := S_OK, activateHr := S_OK, getMixFormatHr := S_OK,
    mixFormat := { wFormatTag := WAVE_FORMAT_IEEE_FLOAT, nChannels := 2,
                   nSamplesPerSec := 48000, wBitsPerSample := 32, nBlockAlign := 8,
                   subFormat := SubFormat.other 0 },
    getDevicePeriodHr := S_OK,
    audioClientInit := fun _ _ => E_FAIL,
    getBufferSizeHr := S_OK, getServiceHr := S_OK, startHr := S_OK }

/-- Extensible mix format wrapping the IEEE-float sub-format. -/
def extFloatFmt : WAVEFORMATEX :=
  { wFormatTag := WAVE_FORMAT_EXTENSIBLE, nChannels := 2, nSamplesPerSec := 48000,
    wBitsPerSample := 32, nBlockAlign := 8, subFormat := SubFormat.ieeeFloat }

/-- Extensible mix format wrapping the PCM sub-format. -/
def extPcmFmt : WAVEFORMATEX :=
  { wFormatTag := WAVE_FORMAT_EXTENSIBLE, nChannels := 2, nSamplesPerSec := 44100,
    wBitsPerSample := 16, nBlockAlign := 4, subFormat := SubFormat.pcm }

/-- Extensible mix format wrapping an unrecognized sub-format. -/
def extOtherFmt : WAVEFORMATEX :=
  { wFormatTag := WAVE_FORMAT_EXTENSIBLE, nChannels := 2, nSamplesPerSec := 48000,
    wBitsPerSample := 24, nBlockAlign := 6, subFormat := SubFormat.other 7 }

/-- A device environment whose calls all succeed. -/
def okDev (id name : String) : DeviceEnv :=
  { itemHr := S_OK, getIdHr := S_OK, openPropsHr := S_OK, getValueHr := S_OK,
    id := id, name := name }

/-- A default-endpoint environment reporting playback device `id`. -/
def okDefault (id : String) : DefaultEnv :=
  { coCreateHr := S_OK, getDefaultHr := S_OK, deviceIdHr := S_OK, deviceId := id }

/-- An enumeration environment in which the playback default is the
second playback device (nonzero offset) and no recording device id equals
the playback default id. -/
def envC8 : ListEnv :=
  { default0 := okDefault "spk2",
    render := { coCreateHr := S_OK, enumEndpointsHr := S_OK, getCountHr := S_OK,
                devices := [okDev "spk1" "Speaker 1", okDev "spk2" "Speaker 2"] },
    defaultRender := okDefault "spk2",
    capture := { coCreateHr := S_OK, enumEndpointsHr := S_OK, getCountHr := S_OK,
                 devices := [okDev "mic1" "Microphone 1"] },
    defaultCapture := okDefault "spk2" }

/-- An enumeration environment whose playback `EnumAudioEndpoints` call
fails with `E_FAIL` while everything else is healthy. -/
def envC4 : ListEnv :=
  { default0 := okDefault "spk1",
    render := { coCreateHr := S_OK, enumEndpointsHr := E_FAIL, getCountHr := S_OK,
                devices := [] },
    defaultRender := okDefault "spk1",
    capture := { coCreateHr := S_OK, enumEndpointsHr := S_OK, getCountHr := S_OK,
                 devices := [] },
    defaultCapture := okDefault "spk1" }

/-! ## Helper lemmas: traces of the capture loop -/

theorem countAcquires_append (a b : List Ev) :
    countAcquires (a ++ b) = countAcquires a + countAcquires b := by
  induction a with
  | nil => simp [countAcquires]
  | cons e rest ih => cases e <;> (simp [countAcquires, ih]; try omega)

theorem countReleases_append (a b : List Ev) :
    countReleases (a ++ b) = countReleases a + countReleases b := by
  induction a with
  | nil => simp [countReleases]
  | cons e rest ih => cases e <;> (simp [countReleases, ih]; try omega)

theorem deliverLengths_append (a b : List Ev) :
    deliverLengths (a ++ b) = deliverLengths a ++ deliverLengths b := by
  induction a with
  | nil => simp [deliverLengths]
  | cons e rest ih => cases e <;> simp [deliverLengths, ih]

/-- A tick that completes with the stop flag observed set ends the run:
its own events are emitted and the loop leaves through the normal stop
edge; no later tick contributes anything. -/
theorem runTicks_cons_stop (ba : Nat) (t : Tick) (rest : List Tick)
    (h1 : t.timerEc = false) (h2 : okTick t = true) (h3 : t.stoppped = true) :
    runTicks ba (t :: rest) = (tickTrace ba t, LoopOutcome.stopped) := by
  obtain ⟨⟨ha, hb⟩, hc⟩ :
      (FAILED t.getNextPacketSizeHr = false ∧ FAILED t.getBufferHr = false) ∧
        FAILED t.releaseBufferHr = false := by
    simpa [okTick, Bool.and_eq_true] using h2
  by_cases hz : t.nextPacketSize = 0 <;>
    simp [runTicks, tickTrace, h1, h3, ha, hb, hc, hz]

/-- A tick that completes with the stop flag observed clear contributes
its events and the run continues with the remaining ticks. -/
theorem runTicks_cons_run (ba : Nat) (t : Tick) (rest : List Tick)
    (h : tickRuns t = true) :
    runTicks ba (t :: rest) =
      (tickTrace ba t ++ (runTicks ba rest).1, (runTicks ba rest).2) := by
  obtain ⟨⟨h1, ⟨ha, hb⟩, hc⟩, h3⟩ :
      (t.timerEc = false ∧
        (FAILED t.getNextPacketSizeHr = false ∧ FAILED t.getBufferHr = false) ∧
          FAILED t.releaseBufferHr = false) ∧ t.stoppped = false := by
    simpa [tickRuns, okTick, Bool.and_eq_true] using h
  by_cases hz : t.nextPacketSize = 0 <;>
    simp [runTicks, tickTrace, h1, h3, ha, hb, hc, hz]

/-- A prefix of fully-running ticks only prepends its events. -/
theorem runTicks_append (ba : Nat) (pre rest : List Tick)
    (h : ∀ u ∈ pre, tickRuns u = true) :
    runTicks ba (pre ++ rest) =
      ((runTicks ba pre).1 ++ (runTicks ba rest).1, (runTicks ba rest).2) := by
  induction pre with
  | nil => simp [runTicks]
  | cons t pre ih =>
    have ht : tickRuns t = true := h t (by simp)
    have h' : ∀ u ∈ pre, tickRuns u = true := fun u hu => h u (by simp [hu])
    rw [List.cons_append, runTicks_cons_run ba t (pre ++ rest) ht,
      runTicks_cons_run ba t pre ht, ih h']
    simp [List.append_assoc]

/-- Every successful `GetBuffer` in a loop trace is matched by a
`ReleaseBuffer` call: the two are adjacent in every branch of the loop
body, whatever the tick environments. -/
theorem runTicks_acquire_eq_release (ba : Nat) (ts : List Tick) :
    countAcquires (runTicks ba ts).1 = countReleases (runTicks ba ts).1 := by
  induction ts with
  | nil => rfl
  | cons t rest ih =>
    simp only [runTicks]
    split_ifs <;>
      simp [countAcquires, countReleases, countAcquires_append,
        countReleases_append, ih]

/-! ## Helper lemmas: enumeration -/

theorem exceptIsOk_iff {α : Type} (x : Except ProcExit α) :
    exceptIsOk x = true ↔ ∃ a, x = .ok a := by
  cases x <;> simp [exceptIsOk]

/-- The function `get_default_endpoint` exits the process exactly when a call other
than the benign not-found query fails. -/
theorem get_default_isOk (d : DefaultEnv) :
    exceptIsOk (get_default_endpoint d) = defOk d := by
  simp only [get_default_endpoint, defOk]
  split_ifs with h1 h2 h3 h4 <;> simp_all [exceptIsOk, FAILED]

/-- On its non-exit paths, `get_default_endpoint` returns exactly
`default_endpoint_value`. -/
theorem get_default_value (d : DefaultEnv) (h : defOk d = true) :
    get_default_endpoint d = .ok (default_endpoint_value d) := by
  simp only [defOk, Bool.and_eq_true, Bool.or_eq_true, Bool.not_eq_true',
    decide_eq_true_eq] at h
  obtain ⟨h1, h2⟩ := h
  rcases h2 with h2 | ⟨h3, h4⟩
  · simp [get_default_endpoint, default_endpoint_value, h1, h2]
  · have hne : d.getDefaultHr ≠ HR_ERROR_NOT_FOUND := by
      intro he
      rw [he] at h3
      exact absurd h3 (by decide)
    simp [get_default_endpoint, default_endpoint_value, h1, hne, h3, h4]

/-- The per-device loop exits the process exactly when some per-device
call fails. -/
theorem scan_isOk (label did : String) (ds : List DeviceEnv) :
    ∀ (i : Nat) (di : Int),
      exceptIsOk (scanDevices label did ds i di) = ds.all devOk := by
  induction ds with
  | nil => intro i di; rfl
  | cons d rest ih =>
    intro i di
    simp only [scanDevices, List.all_cons]
    by_cases h1 : FAILED d.itemHr = true
    · simp [exceptIsOk, devOk, h1]
    by_cases h2 : FAILED d.getIdHr = true
    · simp [exceptIsOk, devOk, h1, h2]
    by_cases h3 : FAILED d.openPropsHr = true
    · simp [exceptIsOk, devOk, h1, h2, h3]
    by_cases h4 : FAILED d.getValueHr = true
    · simp [exceptIsOk, devOk, h1, h2, h3, h4]
    have e1 : FAILED d.itemHr = false := by simpa using h1
    have e2 : FAILED d.getIdHr = false := by simpa using h2
    have e3 : FAILED d.openPropsHr = false := by simpa using h3
    have e4 : FAILED d.getValueHr = false := by simpa using h4
    have hd : devOk d = true := by simp [devOk, e1, e2, e3, e4]
    rw [if_neg h1, if_neg h2, if_neg h3, if_neg h4]
    have hall := ih (i + 1) (if d.id = did then (i : Int) else di)
    cases hrec : scanDevices label did rest (i + 1)
        (if d.id = did then (i : Int) else di) with
    | error e =>
      rw [hrec] at hall
      simp [exceptIsOk, hd, ← hall]
    | ok p =>
      obtain ⟨es, dj⟩ := p
      rw [hrec] at hall
      simp [exceptIsOk, hd, ← hall]

/-- If no scanned device id matches the default id, the incoming
`default_index` is returned unchanged. -/
theorem scan_no_match (label did : String) (ds : List DeviceEnv)
    (hok : ∀ d ∈ ds, devOk d = true) (hnm : ∀ d ∈ ds, d.id ≠ did) :
    ∀ (i : Nat) (di : Int), ∃ es, scanDevices label did ds i di = .ok (es, di) := by
  induction ds with
  | nil => intro i di; exact ⟨[], rfl⟩
  | cons d rest ih =>
    intro i di
    have hd := hok d (by simp)
    have hnd := hnm d (by simp)
    obtain ⟨⟨⟨e1, e2⟩, e3⟩, e4⟩ :
        ((FAILED d.itemHr = false ∧ FAILED d.getIdHr = false) ∧
          FAILED d.openPropsHr = false) ∧ FAILED d.getValueHr = false := by
      simpa [devOk, Bool.and_eq_true] using hd
    obtain ⟨es, hes⟩ := ih (fun u hu => hok u (by simp [hu]))
      (fun u hu => hnm u (by simp [hu])) (i + 1) di
    refine ⟨(d.id, label ++ " " ++ d.name) :: es, ?_⟩
    simp [scanDevices, e1, e2, e3, e4, hnd, hes]

/-- One direction pass exits the process exactly when some pass-level,
per-device or default-query call fails. -/
theorem run_pass_isOk (b : Bool) (p : EnumPassEnv) (d : DefaultEnv) :
    exceptIsOk (run_pass b p d) = (passOk p && defOk d) := by
  simp only [run_pass, passOk]
  by_cases h1 : FAILED p.coCreateHr = true
  · simp [exceptIsOk, h1]
  by_cases h2 : FAILED p.enumEndpointsHr = true
  · simp [exceptIsOk, h1, h2]
  by_cases h3 : FAILED p.getCountHr = true
  · simp [exceptIsOk, h1, h2, h3]
  have e1 : FAILED p.coCreateHr = false := by simpa using h1
  have e2 : FAILED p.enumEndpointsHr = false := by simpa using h2
  have e3 : FAILED p.getCountHr = false := by simpa using h3
  rw [if_neg h1, if_neg h2, if_neg h3]
  have hdef := get_default_isOk d
  cases hd : get_default_endpoint d with
  | error e =>
    rw [hd] at hdef
    simp [exceptIsOk, e1, e2, e3, ← hdef]
  | ok did =>
    rw [hd] at hdef
    have hdd : defOk d = true := by rw [← hdef]; rfl
    show exceptIsOk (scanDevices (if b = true then "[Playback]" else "[Recording]") did
        p.devices 0 (-1)) =
      (!FAILED p.coCreateHr && !FAILED p.enumEndpointsHr && !FAILED p.getCountHr &&
        p.devices.all devOk && defOk d)
    rw [scan_isOk]
    simp [e1, e2, e3, hdd]

/-- A pass whose calls all succeed returns a value. -/
theorem run_pass_okex (b : Bool) (p : EnumPassEnv) (d : DefaultEnv)
    (hp : passOk p = true) (hd : defOk d = true) :
    ∃ r, run_pass b p d = .ok r := by
  rw [← exceptIsOk_iff, run_pass_isOk, hp, hd]
  rfl

/-- Forward direction: a `get_endpoint_list` call that returns to the
caller had every OS call succeed (not-found defaults allowed). -/
theorem get_endpoint_list_isOk_mp (env : ListEnv)
    (h : exceptIsOk (get_endpoint_list env) = true) : allEnumOk env = true := by
  simp only [get_endpoint_list] at h
  cases h0 : get_default_endpoint env.default0 with
  | error e => rw [h0] at h; exact absurd h (by simp [exceptIsOk])
  | ok s0 =>
    rw [h0] at h
    cases h1 : run_pass true env.render env.defaultRender with
    | error e => rw [h1] at h; exact absurd h (by simp [exceptIsOk])
    | ok r1 =>
      obtain ⟨es1, di1⟩ := r1
      rw [h1] at h
      cases h2 : run_pass false env.capture env.defaultCapture with
      | error e => rw [h2] at h; exact absurd h (by simp [exceptIsOk])
      | ok r2 =>
        have b0 : defOk env.default0 = true := by
          rw [← get_default_isOk, h0]
          rfl
        have b1 : (passOk env.render && defOk env.defaultRender) = true := by
          rw [← run_pass_isOk true env.render env.defaultRender, h1]
          rfl
        have b2 : (passOk env.capture && defOk env.defaultCapture) = true := by
          rw [← run_pass_isOk false env.capture env.defaultCapture, h2]
          rfl
        obtain ⟨p1, d1⟩ : passOk env.render = true ∧ defOk env.defaultRender = true := by
          simpa using b1
        obtain ⟨p2, d2⟩ : passOk env.capture = true ∧ defOk env.defaultCapture = true := by
          simpa using b2
        simp [allEnumOk, b0, p1, d1, p2, d2]

/-- Backward direction: if every OS call succeeds, `get_endpoint_list`
returns to the caller. -/
theorem get_endpoint_list_isOk_mpr (env : ListEnv)
    (h : allEnumOk env = true) : exceptIsOk (get_endpoint_list env) = true := by
  obtain ⟨⟨⟨⟨b0, p1⟩, d1⟩, p2⟩, d2⟩ :
      ((((defOk env.default0 = true ∧ passOk env.render = true) ∧
        defOk env.defaultRender = true) ∧ passOk env.capture = true) ∧
        defOk env.defaultCapture = true) := by
    simpa [allEnumOk, Bool.and_eq_true] using h
  have e0 := get_default_value env.default0 b0
  obtain ⟨r1, hr1⟩ := run_pass_okex true env.render env.defaultRender p1 d1
  obtain ⟨es1, di1⟩ := r1
  obtain ⟨r2, hr2⟩ := run_pass_okex false env.capture env.defaultCapture p2 d2
  obtain ⟨es2, di2⟩ := r2
  simp [get_endpoint_list, e0, hr1, hr2, exceptIsOk]

/-! ## Claims -/

/-- Claim C1 is refuted in its final part: when both initialization
attempts fail, the claim says a non-empty diagnostic reason is returned
to the caller, i.e. the call returns.  It does not: `exit_on_failed`
(line 126) terminates the process with `exit(-1)` — the reason is logged,
never returned.  The environment `envC1both`, whose two `Initialize`
attempts both fail while every other call succeeds, refutes the
implication that such a call returns to the caller. -/
theorem claim_C1_counterexample :
    ¬ (∀ env : CaptureInitEnv, setupOk env = true →
        FAILED (loopbackHr env) = true → FAILED (fallbackHr env) = true →
        exceptIsOk (do_loopback_recording_init env).2 = true) := by
  intro hclaim
  exact absurd (hclaim envC1both (by decide) (by decide) (by decide)) (by decide)

/-- Claim C1 (amended): in `do_loopback_recording`, if the primary
shared-mode `Initialize` with the loopback flag is rejected, exactly one
fallback `Initialize` with the event-callback flag and the same format is
attempted (no retry loop); success of either attempt lets the session
reach Running (the stream is started and the capture loop is entered,
modelled by the `.ok` result), and failure of both terminates the
process through `exit_on_failed` (the terminal failure path, modelled by
the `.error` result, which the caller never receives) with the non-empty
diagnostic reason of line 126 logged, not returned. -/
theorem claim_C1 (env : CaptureInitEnv) (h : setupOk env = true) :
    (FAILED (loopbackHr env) = false →
      do_loopback_recording_init env =
        ([primaryAttempt env], .ok (negotiatedFormat env))) ∧
    (FAILED (loopbackHr env) = true → FAILED (fallbackHr env) = false →
      do_loopback_recording_init env =
        ([primaryAttempt env, fallbackAttempt env], .ok (negotiatedFormat env))) ∧
    (FAILED (loopbackHr env) = true → FAILED (fallbackHr env) = true →
      do_loopback_recording_init env =
        ([primaryAttempt env, fallbackAttempt env],
          .error ⟨"Failed to initialize audio client for loopback", fallbackHr env⟩) ∧
      "Failed to initialize audio client for loopback" ≠ "") := by
  simp only [setupOk, Bool.and_eq_true, Bool.not_eq_true'] at h
  obtain ⟨⟨⟨⟨⟨⟨⟨⟨⟨s1, s2⟩, s3⟩, s4⟩, s5⟩, s6⟩, s7⟩, s8⟩, s9⟩, s10⟩ := h
  refine ⟨fun h1 => ?_, fun h1 h2 => ?_, fun h1 h2 => ⟨?_, by decide⟩⟩ <;>
    simp only [loopbackHr] at h1 <;>
    try simp only [fallbackHr] at h2
  · simp [do_loopback_recording_init, postInit, primaryAttempt, negotiatedFormat,
      s1, s2, s3, s4, s5, s6, s7, s8, s9, s10, h1]
  · simp [do_loopback_recording_init, postInit, primaryAttempt, fallbackAttempt,
      negotiatedFormat, s1, s2, s3, s4, s5, s6, s7, s8, s9, s10, h1, h2]
  · simp [do_loopback_recording_init, postInit, primaryAttempt, fallbackAttempt,
      fallbackHr, s1, s2, s3, s4, s5, s6, s7, h1, h2]

/-- Witness for the amended C1: a concrete environment whose loopback
initialization is rejected and whose fallback succeeds reaches Running
after exactly the two recorded attempts, both with the same format. -/
theorem claim_C1_witness :
    setupOk envC1 = true ∧
    do_loopback_recording_init envC1 =
      ([primaryAttempt envC1, fallbackAttempt envC1], .ok (negotiatedFormat envC1)) :=
  ⟨by decide, (claim_C1 envC1 (by decide)).2.1 (by decide) (by decide)⟩

/-- Claim C2 is refuted: the capture loop is a do-while whose stop flag is
read only at the bottom, so a tick that starts with the flag already set
still performs its packet poll and a full buffer acquire/deliver/release.
The claim — a flag-set tick performs no buffer operation — fails on the
concrete run below, whose single tick observes the flag set yet acquires
a buffer. -/
theorem claim_C2_counterexample :
    ¬ (∀ (ba : Nat) (t : Tick) (rest : List Tick), t.stoppped = true →
        countAcquires (runTicks ba (t :: rest)).1 = 0) := by
  intro hclaim
  exact absurd (hclaim 4 cexStopTick [] rfl) (by decide)

/-- Claim C2 (amended): the stop flag is observed at the bottom of each
tick of the do-while loop, after the buffer operations of that tick; when it
is observed set, the loop transitions to the stop path having emitted
only the events of that tick — no later tick begins and no further buffer
operation occurs. -/
theorem claim_C2 (ba : Nat) (t : Tick) (rest : List Tick)
    (h1 : t.timerEc = false) (h2 : okTick t = true) (h3 : t.stoppped = true) :
    runTicks ba (t :: rest) = (tickTrace ba t, LoopOutcome.stopped) :=
  runTicks_cons_stop ba t rest h1 h2 h3

/-- Witness for the amended C2 at a concrete flag-set tick. -/
theorem claim_C2_witness :
    okTick cexStopTick = true ∧
    runTicks 4 [cexStopTick] = (tickTrace 4 cexStopTick, LoopOutcome.stopped) :=
  ⟨by decide, claim_C2 4 cexStopTick [] rfl (by decide) rfl⟩

/-- Claim C3: over any run of the capture loop, zero-packet ticks deliver
nothing to the sink and nonzero ticks deliver exactly
`numFramesAvailable * nBlockAlign` bytes, in tick order — the delivered
byte lengths are exactly the per-tick products of the nonzero ticks. -/
theorem claim_C3 (ba : Nat) (ts : List Tick) (h : ts.all tickRuns = true) :
    deliverLengths (runTicks ba ts).1 =
      ts.filterMap (fun t => if t.nextPacketSize = 0 then none
        else some (t.numFramesAvailable * ba)) := by
  induction ts with
  | nil => rfl
  | cons t rest ih =>
    obtain ⟨ht, hrest⟩ : tickRuns t = true ∧ rest.all tickRuns = true := by
      simpa using h
    rw [runTicks_cons_run ba t rest ht]
    by_cases hz : t.nextPacketSize = 0 <;>
      simp [tickTrace, deliverLengths, deliverLengths_append, hz, ih hrest]

/-- Witness for C3: the simulated packet-size sequence `[0, 480, 0, 960]`
with block alignment 4 delivers exactly twice, 1920 then 3840 bytes. -/
theorem claim_C3_witness :
    simTicks.all tickRuns = true ∧
    deliverLengths (runTicks 4 simTicks).1 = [1920, 3840] := by
  refine ⟨by decide, ?_⟩
  have h := claim_C3 4 simTicks (by decide)
  rw [h]
  decide

/-- Claim C4 is refuted: an enumeration-level OS query failure inside
`get_endpoint_list` does not surface as a recoverable failure result with
the process continuing — `exit_on_failed` terminates the process
(modelled by the `.error` result, which the caller never receives).  The
claim implies every call returns to its caller; the environment `envC4`,
whose playback `EnumAudioEndpoints` fails with `E_FAIL`, refutes it. -/
theorem claim_C4_counterexample :
    ¬ (∀ env : ListEnv, exceptIsOk (get_endpoint_list env) = true) := by
  intro hclaim
  exact absurd (hclaim envC4) (by decide)

/-- Claim C4 (amended): `get_endpoint_list` returns to the caller exactly
when no OS query inside it fails; any enumeration-level failure instead
terminates the process via `exit_on_failed`, which logs a reason derived
from the failing OS error code.  The valid empty result of having no
default device (the benign not-found branch, accepted by `defOk`) is on
the returning side of this equivalence, so a failure is never conflated
with it. -/
theorem claim_C4 (env : ListEnv) :
    exceptIsOk (get_endpoint_list env) = allEnumOk env := by
  cases hall : allEnumOk env with
  | true => exact get_endpoint_list_isOk_mpr env hall
  | false =>
    cases hok : exceptIsOk (get_endpoint_list env) with
    | false => rfl
    | true =>
      have hmp := get_endpoint_list_isOk_mp env hok
      rw [hall] at hmp
      exact absurd hmp (by decide)

/-- Claim C5: `set_format` maps an extensible native format with the
IEEE-float sub-format to canonical IEEE_FLOAT, one with the PCM
sub-format to canonical PCM, and one with any other sub-format to the
unknown tag (the protobuf field keeps its default).  `set_format` is a
total function — no branch raises an error or aborts the pipeline. -/
theorem claim_C5 (fmt : WAVEFORMATEX) (h : fmt.wFormatTag = WAVE_FORMAT_EXTENSIBLE) :
    (fmt.subFormat = SubFormat.ieeeFloat →
      (set_format defaultAudioFormat fmt).format_tag = WAVE_FORMAT_IEEE_FLOAT) ∧
    (fmt.subFormat = SubFormat.pcm →
      (set_format defaultAudioFormat fmt).format_tag = WAVE_FORMAT_PCM) ∧
    (∀ n : Nat, fmt.subFormat = SubFormat.other n →
      (set_format defaultAudioFormat fmt).format_tag = FORMAT_TAG_UNKNOWN) := by
  refine ⟨fun hs => ?_, fun hs => ?_, fun n hs => ?_⟩ <;>
    simp [set_format, defaultAudioFormat, FORMAT_TAG_UNKNOWN, h, hs,
      WAVE_FORMAT_PCM, WAVE_FORMAT_IEEE_FLOAT, WAVE_FORMAT_EXTENSIBLE]

/-- Witness for C5 on three concrete extensible formats. -/
theorem claim_C5_witness :
    (set_format defaultAudioFormat extFloatFmt).format_tag = WAVE_FORMAT_IEEE_FLOAT ∧
    (set_format defaultAudioFormat extPcmFmt).format_tag = WAVE_FORMAT_PCM ∧
    (set_format defaultAudioFormat extOtherFmt).format_tag = FORMAT_TAG_UNKNOWN :=
  ⟨(claim_C5 extFloatFmt rfl).1 rfl, (claim_C5 extPcmFmt rfl).2.1 rfl,
    (claim_C5 extOtherFmt rfl).2.2 7 rfl⟩

/-- Claim C6: when the stop flag becomes set while the loop is running
(ticks `pre` run with the flag clear, tick `t` observes it set), the run
ends through the normal stop path at tick `t` — at most one more buffer
acquire/release pair (that of tick `t`) occurs after the flag is set, no
tick of `post` runs, and over the whole run every acquire is paired with
a release. -/
theorem claim_C6 (ba : Nat) (pre post : List Tick) (t : Tick)
    (hpre : ∀ u ∈ pre, tickRuns u = true)
    (h1 : t.timerEc = false) (h2 : okTick t = true) (h3 : t.stoppped = true) :
    (runTicks ba (pre ++ t :: post)).2 = LoopOutcome.stopped ∧
    (runTicks ba (pre ++ t :: post)).1 = (runTicks ba pre).1 ++ tickTrace ba t ∧
    countAcquires (tickTrace ba t) ≤ 1 ∧
    countAcquires (runTicks ba (pre ++ t :: post)).1 =
      countReleases (runTicks ba (pre ++ t :: post)).1 := by
  have happ := runTicks_append ba pre (t :: post) hpre
  have hstop := runTicks_cons_stop ba t post h1 h2 h3
  refine ⟨?_, ?_, ?_, runTicks_acquire_eq_release ba _⟩
  · simp [happ, hstop]
  · simp [happ, hstop]
  · by_cases hz : t.nextPacketSize = 0 <;> simp [tickTrace, countAcquires, hz]

/-- Witness for C6: a run with one clean tick, then a flag-set tick with
480 pending frames, then a would-be further tick. -/
theorem claim_C6_witness :
    (runTicks 4 (preC6 ++ tC6 :: postC6)).2 = LoopOutcome.stopped ∧
    countAcquires (tickTrace 4 tC6) ≤ 1 ∧
    countAcquires (runTicks 4 (preC6 ++ tC6 :: postC6)).1 =
      countReleases (runTicks 4 (preC6 ++ tC6 :: postC6)).1 := by
  have h := claim_C6 4 preC6 postC6 tC6 (by decide) (by decide) (by decide) (by decide)
  exact ⟨h.1, h.2.2.1, h.2.2.2⟩

/-- Claim C7: `get_default_endpoint` returns the empty result, never an
error, when `GetDefaultAudioEndpoint` reports that no playback device is
present; and its result is determined entirely by the OS state the call
itself observes — the function threads no state between calls, so a call
on state `env` always reports `default_endpoint_value env`. -/
theorem claim_C7 (env : DefaultEnv) (h : FAILED env.coCreateHr = false) :
    (env.getDefaultHr = HR_ERROR_NOT_FOUND → get_default_endpoint env = .ok "") ∧
    (FAILED env.getDefaultHr = false → FAILED env.deviceIdHr = false →
      get_default_endpoint env = .ok env.deviceId) ∧
    (defOk env = true → get_default_endpoint env = .ok (default_endpoint_value env)) := by
  refine ⟨fun hnf => ?_, fun hg hi => ?_, fun hok => get_default_value env hok⟩
  · simp [get_default_endpoint, h, hnf]
  · have hne : env.getDefaultHr ≠ HR_ERROR_NOT_FOUND := by
      intro he
      rw [he] at hg
      exact absurd hg (by decide)
    simp [get_default_endpoint, h, hne, hg, hi]

/-- Witness for C7: a no-device state yields the empty result and a
device state yields that device id, fresh from the state passed. -/
theorem claim_C7_witness :
    get_default_endpoint ⟨S_OK, HR_ERROR_NOT_FOUND, S_OK, "dev"⟩ = .ok "" ∧
    get_default_endpoint ⟨S_OK, S_OK, S_OK, "dev"⟩ = .ok "dev" :=
  ⟨(claim_C7 ⟨S_OK, HR_ERROR_NOT_FOUND, S_OK, "dev"⟩ (by decide)).1 rfl,
    (claim_C7 ⟨S_OK, S_OK, S_OK, "dev"⟩ (by decide)).2.1 (by decide) (by decide)⟩

/-- Claim C8: `get_endpoint_list` resets `default_index` to `-1` at the
start of each direction pass and matches only against the playback
default id, so whenever no recording device id equals the playback
default id, the returned index is `-1` — even when a playback device is
the current default at a nonzero offset (no hypothesis restrains the
playback pass). -/
theorem claim_C8 (env : ListEnv) (hok : allEnumOk env = true)
    (hnm : ∀ d ∈ env.capture.devices,
      d.id ≠ default_endpoint_value env.defaultCapture) :
    ∃ entries, get_endpoint_list env = .ok (entries, -1) := by
  obtain ⟨⟨⟨⟨b0, p1⟩, d1⟩, p2⟩, d2⟩ :
      ((((defOk env.default0 = true ∧ passOk env.render = true) ∧
        defOk env.defaultRender = true) ∧ passOk env.capture = true) ∧
        defOk env.defaultCapture = true) := by
    simpa [allEnumOk, Bool.and_eq_true] using hok
  have e0 := get_default_value env.default0 b0
  obtain ⟨r1, hr1⟩ := run_pass_okex true env.render env.defaultRender p1 d1
  obtain ⟨es1, di1⟩ := r1
  have ec := get_default_value env.defaultCapture d2
  obtain ⟨⟨⟨c1, c2⟩, c3⟩, call⟩ :
      (((FAILED env.capture.coCreateHr = false ∧
        FAILED env.capture.enumEndpointsHr = false) ∧
        FAILED env.capture.getCountHr = false) ∧
        env.capture.devices.all devOk = true) := by
    simpa [passOk, Bool.and_eq_true] using p2
  have hall : ∀ d ∈ env.capture.devices, devOk d = true := fun d hd =>
    List.all_eq_true.mp call d hd
  obtain ⟨es2, hscan⟩ := scan_no_match "[Recording]"
    (default_endpoint_value env.defaultCapture) env.capture.devices hall hnm 0 (-1)
  refine ⟨es1 ++ es2, ?_⟩
  have hcap : run_pass false env.capture env.defaultCapture = .ok (es2, -1) := by
    simp [run_pass, c1, c2, c3, ec, hscan]
  simp [get_endpoint_list, e0, hr1, hcap]

/-- Witness for C8: the playback default is the second playback device
(offset 1), no recording device matches it, and the returned default
index is nevertheless `-1`. -/
theorem claim_C8_witness :
    allEnumOk envC8 = true ∧
    ∃ entries, get_endpoint_list envC8 = .ok (entries, -1) :=
  ⟨by decide, claim_C8 envC8 (by decide) (by decide)⟩

/-- Claim C9: when the periodic timer wait reports an error, the loop
breaks out silently with no further operation of that tick, the stream is
stopped through the normal post-loop `Stop()` path, and the outcome is
the same `stopped` terminal a requested stop produces — the two are
indistinguishable. -/
theorem claim_C9 (ba : Nat) (t : Tick) (rest : List Tick) (h : t.timerEc = true) :
    runTicks ba (t :: rest) = ([Ev.timerWait], LoopOutcome.stopped) ∧
    (∀ u : Tick, u.timerEc = false → okTick u = true → u.stoppped = true →
      (runTicks ba (t :: rest)).2 = (runTicks ba [u]).2) := by
  constructor
  · simp [runTicks, h]
  · intro u h1 h2 h3
    rw [runTicks_cons_stop ba u [] h1 h2 h3]
    simp [runTicks, h]

/-- Witness for C9 at a concrete failing timer tick. -/
theorem claim_C9_witness :
    runTicks 4 [(⟨true, S_OK, 0, S_OK, 0, S_OK, false⟩ : Tick)] =
      ([Ev.timerWait], LoopOutcome.stopped) :=
  (claim_C9 4 ⟨true, S_OK, 0, S_OK, 0, S_OK, false⟩ [] rfl).1

/-- Claim C10: the loop body is a do-while, so a session that reaches
Running executes at least one full tick — timer wait, packet poll, and a
buffer acquire/deliver/release when data is pending — even when the stop
flag was already set before capture started. -/
theorem claim_C10 (ba : Nat) (t : Tick) (rest : List Tick)
    (h1 : t.timerEc = false) (h2 : okTick t = true) (h3 : t.stoppped = true) :
    (t.nextPacketSize ≠ 0 →
      runTicks ba (t :: rest) =
        ([Ev.timerWait, Ev.pollPacket t.nextPacketSize, Ev.acquire,
          Ev.deliver (t.numFramesAvailable * ba), Ev.release], LoopOutcome.stopped)) ∧
    (t.nextPacketSize = 0 →
      runTicks ba (t :: rest) =
        ([Ev.timerWait, Ev.pollPacket t.nextPacketSize], LoopOutcome.stopped)) := by
  have h := runTicks_cons_stop ba t rest h1 h2 h3
  constructor <;> intro hz <;> rw [h] <;> simp [tickTrace, hz]

/-- Witness for C10: one tick with the stop flag pre-set and 480 pending
frames still runs a full poll/acquire/deliver/release cycle. -/
theorem claim_C10_witness :
    runTicks 4 [(⟨false, S_OK, 480, S_OK, 480, S_OK, true⟩ : Tick)] =
      ([Ev.timerWait, Ev.pollPacket 480, Ev.acquire, Ev.deliver 1920, Ev.release],
        LoopOutcome.stopped) := by
  have h := (claim_C10 4 ⟨false, S_OK, 480, S_OK, 480, S_OK, true⟩ [] rfl
    (by decide) rfl).1 (by decide)
  simpa using h

end AudioShare
